import Mathlib

/-!
Verification of the session-gated data-access layer of a content-streaming
web application.  The development shallowly embeds the server-side request
handlers (registration, current user, movie catalog, random movie, favorites
list, favorite add/remove), the session validator, the persistence gateway,
and the client data hooks, and proves the documented behavioural properties
about them.

Conventions of the embedding:
* The document database is a pair of lists (users, movies); Prisma calls
  become pure list operations (`findUnique` is `List.find?`, `findMany`
  with an `in` filter is `List.filter`, `count` is `List.length`,
  `update` rewrites the matching record in place).
* Asynchronous handlers become pure functions from an HTTP method, the
  (optional) session attached to the request, the request parameters and
  the database state to a `Response` together with the resulting state.
* A thrown JavaScript `Error` becomes `Except.error` carrying the error
  message; the surrounding `try/catch` of every handler converts any such
  error into a status-400 response.
* `Math.random()` is modelled by a rational `q` with `0 ≤ q < 1`;
  `Math.floor (q * count)` is `(q * count).floor.toNat`.
* `bcrypt.hash` is an external one-way function; registration is
  parameterised by an arbitrary `hash : String → Nat → String` so that the
  handler's use of it (cost factor 12, hash stored instead of plaintext)
  can be stated without fixing the algorithm.
-/

/-- A stored User record (Prisma `User` model): identifier, unique email,
display name, image reference, optional hashed password, optional
email-verified timestamp, creation/update timestamps, and the ordered
sequence of favorite movie identifiers. -/
structure User where
  id : String
  email : String
  name : String
  image : String
  hashedPassword : Option String
  emailVerified : Option Nat
  createdAt : Nat
  updatedAt : Nat
  favoriteIds : List String
deriving Repr, DecidableEq

/-- A stored Movie record (Prisma `Movie` model). -/
structure Movie where
  id : String
  title : String
  description : String
  videoUrl : String
  thumbnailUrl : String
  genre : String
  duration : String
deriving Repr, DecidableEq

/-- The document database: the `users` and `movies` collections. -/
structure DB where
  users : List User
  movies : List Movie
deriving Repr, DecidableEq

/-- The user object carried inside a NextAuth session (`session.user`);
its `email` claim is optional. -/
structure SessionUser where
  email : Option String
deriving Repr, DecidableEq

/-- A NextAuth session as seen by `getServerSession`; the `user` field is
optional. -/
structure Session where
  user : Option SessionUser
deriving Repr, DecidableEq

/-- HTTP methods used by the API routes. -/
inductive Method where
  | GET
  | POST
  | DELETE
  | PUT
deriving Repr, DecidableEq

/-- Bodies of JSON responses produced by the handlers: a serialized User,
a serialized Movie, a list of Movies, an error object `{error: msg}`, or
the serialization of JavaScript `undefined` (produced by `/api/random` on
an empty catalog). -/
inductive Body where
  | user : User → Body
  | movie : Movie → Body
  | movies : List Movie → Body
  | err : String → Body
  | undef : Body
deriving Repr, DecidableEq

/-- An HTTP response: status code plus optional JSON body
(`res.status(s).end()` has no body, `res.status(s).json(x)` has one). -/
structure Response where
  status : Nat
  body : Option Body
deriving Repr, DecidableEq

/-- Persistence gateway: `prismadb.movie.findUnique({where: {id}})`. -/
def movieFindUnique (db : DB) (movieId : String) : Option Movie :=
  db.movies.find? (fun m => m.id == movieId)

/-- Persistence gateway: `prismadb.user.findUnique({where: {email}})`. -/
def userFindUnique (db : DB) (email : String) : Option User :=
  db.users.find? (fun u => u.email == email)

/-- Persistence gateway: `prismadb.movie.count()`. -/
def movieCount (db : DB) : Nat :=
  db.movies.length

/-- Persistence gateway: `prismadb.movie.findMany()` (whole catalog). -/
def movieFindManyAll (db : DB) : List Movie :=
  db.movies

/-- Persistence gateway: `prismadb.movie.findMany({take: 1, skip: n})`. -/
def movieFindManySkipTake1 (db : DB) (skip : Nat) : List Movie :=
  (db.movies.drop skip).take 1

/-- Persistence gateway: `prismadb.movie.findMany({where: {id: {in: ids}}})`. -/
def movieFindManyIdIn (db : DB) (ids : List String) : List Movie :=
  db.movies.filter (fun m => ids.contains m.id)

/-- Persistence gateway: `prismadb.user.update({where: {email}, data})`.
The record whose (unique) email matches is rewritten with `g`; the updated
record is returned together with the new database state.  `none` models the
exception Prisma throws when no record matches the `where` clause. -/
def updateUserByEmail (db : DB) (email : String) (g : User → User) :
    Option (User × DB) :=
  match db.users.find? (fun u => u.email == email) with
  | none => none
  | some u =>
      some (g u,
        { db with users := db.users.map (fun v => if v.email == email then g v else v) })

/-- `user.update` with `data: {favoriteIds: {push: movieId}}`. -/
def userUpdatePushFavorite (db : DB) (email movieId : String) :
    Option (User × DB) :=
  updateUserByEmail db email
    (fun u => { u with favoriteIds := u.favoriteIds ++ [movieId] })

/-- `user.update` with `data: {favoriteIds}` (whole-array replacement). -/
def userUpdateSetFavorites (db : DB) (email : String) (favs : List String) :
    Option (User × DB) :=
  updateUserByEmail db email (fun u => { u with favoriteIds := favs })

/-- The state effect of an email-keyed `user.update` touching only the
`favoriteIds` field: the matching record's sequence is rewritten with `h`,
everything else is untouched. -/
def dbMapFavorites (db : DB) (key : String) (h : List String → List String) : DB :=
  { db with users := db.users.map (fun v => if v.email == key then { v with favoriteIds := h v.favoriteIds } else v) }

/-- lodash `without(list, v)`: a copy of `list` with every occurrence of
`v` removed. -/
def without (l : List String) (v : String) : List String :=
  l.filter (fun y => y != v)

/-- The session validator (`lib/serverAuth.ts`): resolve the request's
session; fail with `Not signed in` when the session is absent or its email
claim is missing/empty (the JavaScript truthiness test
`!session?.user?.email`); otherwise look the user up by email and fail
with the same `Not signed in` error when no account exists. -/
def serverAuth (sess : Option Session) (db : DB) : Except String User :=
  match sess with
  | none => .error "Not signed in"
  | some s =>
      match s.user with
      | none => .error "Not signed in"
      | some su =>
          match su.email with
          | none => .error "Not signed in"
          | some email =>
              if email = "" then .error "Not signed in"
              else
                match userFindUnique db email with
                | none => .error "Not signed in"
                | some u => .ok u

/-- `GET /api/current` (the current-user endpoint): method guard, then
session validation, then the current user serialized with status 200; any
thrown error becomes a bodyless 400. -/
def currentHandler (method : Method) (sess : Option Session) (db : DB) : Response :=
  if method ≠ .GET then { status := 405, body := none }
  else
    match serverAuth sess db with
    | .error _ => { status := 400, body := none }
    | .ok currentUser => { status := 200, body := some (.user currentUser) }

/-- `GET /api/movies`: method guard, session validation, whole catalog. -/
def moviesHandler (method : Method) (sess : Option Session) (db : DB) : Response :=
  if method ≠ .GET then { status := 405, body := none }
  else
    match serverAuth sess db with
    | .error _ => { status := 400, body := none }
    | .ok _ => { status := 200, body := some (.movies (movieFindManyAll db)) }

/-- The try-block of `GET /api/movies/[movieId]`: session validation, then
the `movieId` query value must be a string (`none` models a non-string
query value), non-empty, and name an existing Movie; all three violations
throw the same `Invalid ID` error. -/
def movieByIdCore (sess : Option Session) (movieId? : Option String) (db : DB) :
    Except String Movie :=
  match serverAuth sess db with
  | .error e => .error e
  | .ok _ =>
      match movieId? with
      | none => .error "Invalid ID"
      | some movieId =>
          if movieId = "" then .error "Invalid ID"
          else
            match movieFindUnique db movieId with
            | none => .error "Invalid ID"
            | some movie => .ok movie

/-- `GET /api/movies/[movieId]`: method guard around `movieByIdCore`,
with every thrown error surfaced as a bodyless 400. -/
def movieByIdHandler (method : Method) (sess : Option Session)
    (movieId? : Option String) (db : DB) : Response :=
  if method ≠ .GET then { status := 405, body := none }
  else
    match movieByIdCore sess movieId? db with
    | .error _ => { status := 400, body := none }
    | .ok movie => { status := 200, body := some (.movie movie) }

/-- `Math.floor(q * movieCount)` for a random draw `q ∈ [0, 1)`. -/
def randomIndex (q : ℚ) (count : Nat) : Nat :=
  (q * count).floor.toNat

/-- `GET /api/random`: count the catalog, draw the random offset, fetch
one record at that offset (`take: 1, skip: randomIndex`), and serialize
`randomMovies[0]` — which is JavaScript `undefined` when the fetch came
back empty. -/
def randomHandler (method : Method) (sess : Option Session) (q : ℚ) (db : DB) :
    Response :=
  if method ≠ .GET then { status := 405, body := none }
  else
    match serverAuth sess db with
    | .error _ => { status := 400, body := none }
    | .ok _ =>
        match movieFindManySkipTake1 db (randomIndex q (movieCount db)) with
        | [] => { status := 200, body := some .undef }
        | m :: _ => { status := 200, body := some (.movie m) }

/-- `GET /api/favorites`: session validation, then every Movie whose id is
a member of the current user's `favoriteIds`. -/
def favoritesHandler (method : Method) (sess : Option Session) (db : DB) : Response :=
  if method ≠ .GET then { status := 405, body := none }
  else
    match serverAuth sess db with
    | .error _ => { status := 400, body := none }
    | .ok currentUser =>
        { status := 200,
          body := some (.movies (movieFindManyIdIn db currentUser.favoriteIds)) }

/-- The try-block of `POST /api/favorite`: session validation, movie
existence check (`Invalid ID` when the movie does not exist), then push the
id onto the current user's `favoriteIds`. -/
def favoriteAddCore (sess : Option Session) (movieId : String) (db : DB) :
    Except String (User × DB) :=
  match serverAuth sess db with
  | .error e => .error e
  | .ok currentUser =>
      match movieFindUnique db movieId with
      | none => .error "Invalid ID"
      | some _ =>
          match userUpdatePushFavorite db currentUser.email movieId with
          | none => .error "Record to update not found"
          | some r => .ok r

/-- The try-block of `DELETE /api/favorite`: session validation, movie
existence check (`Invalid ID` when the movie does not exist), then store
`without currentUser.favoriteIds movieId` as the new favorites array. -/
def favoriteRemoveCore (sess : Option Session) (movieId : String) (db : DB) :
    Except String (User × DB) :=
  match serverAuth sess db with
  | .error e => .error e
  | .ok currentUser =>
      match movieFindUnique db movieId with
      | none => .error "Invalid ID"
      | some _ =>
          match userUpdateSetFavorites db currentUser.email
              (without currentUser.favoriteIds movieId) with
          | none => .error "Record to update not found"
          | some r => .ok r

/-- `POST`/`DELETE /api/favorite`: dispatch on the method, run the
corresponding core, answer 200 with the updated user on success, a
bodyless 400 on any thrown error, and 405 on other methods. -/
def favoriteHandler (method : Method) (sess : Option Session) (movieId : String)
    (db : DB) : Response × DB :=
  match method with
  | .POST =>
      match favoriteAddCore sess movieId db with
      | .error _ => ({ status := 400, body := none }, db)
      | .ok (u, db') => ({ status := 200, body := some (.user u) }, db')
  | .DELETE =>
      match favoriteRemoveCore sess movieId db with
      | .error _ => ({ status := 400, body := none }, db)
      | .ok (u, db') => ({ status := 200, body := some (.user u) }, db')
  | _ => ({ status := 405, body := none }, db)

/-- The request body of `POST /api/register`; each field is optional
because the handler destructures an untyped JSON body. -/
structure RegisterBody where
  email : Option String
  name : Option String
  password : Option String
deriving Repr, DecidableEq

/-- `POST /api/register`: reject non-POST with 405; answer 422
`{error: "Email taken"}` when a user with the email already exists;
otherwise hash the password with cost factor 12 and create the user with
the hash, an empty image and an immediate email-verified timestamp.
A missing `email` makes the `findUnique` call throw, a missing `password`
makes `bcrypt.hash` throw, and a missing `name` makes `user.create` throw;
the catch converts each throw into a 400 with an
`{error: "Something went wrong ..."}` body. -/
def registerHandler (method : Method) (body : RegisterBody)
    (hash : String → Nat → String) (newId : String) (now : Nat) (db : DB) :
    Response × DB :=
  if method ≠ .POST then ({ status := 405, body := none }, db)
  else
    match body.email with
    | none => ({ status := 400, body := some (.err "Something went wrong") }, db)
    | some email =>
        match userFindUnique db email with
        | some _ => ({ status := 422, body := some (.err "Email taken") }, db)
        | none =>
            match body.password with
            | none => ({ status := 400, body := some (.err "Something went wrong") }, db)
            | some password =>
                match body.name with
                | none => ({ status := 400, body := some (.err "Something went wrong") }, db)
                | some nm =>
                    let user : User :=
                      { id := newId
                        email := email
                        name := nm
                        image := ""
                        hashedPassword := some (hash password 12)
                        emailVerified := some now
                        createdAt := now
                        updatedAt := now
                        favoriteIds := [] }
                    ({ status := 200, body := some (.user user) },
                     { db with users := db.users ++ [user] })

/-- The state of one SWR cache entry: `data` is `none` until the first
successful fetch, `error` holds the last fetch failure, `isLoading` is the
in-flight flag. -/
structure SWRCache (α : Type) where
  data : Option α
  error : Option String
  isLoading : Bool
deriving Repr, DecidableEq

/-- What a client data hook exposes to UI code. -/
structure HookResult (δ : Type) where
  data : δ
  error : Option String
  isLoading : Bool
deriving Repr, DecidableEq

/-- The SWR request key computed by `useMovie`:
`id ? `/api/movies/${id}` : null`, where the JavaScript truthiness test
makes both a missing id and an empty-string id produce a null key. -/
def useMovieRequestKey (id : Option String) : Option String :=
  match id with
  | none => none
  | some s => if s = "" then none else some ("/api/movies/" ++ s)

/-- SWR's conditional-fetching contract (third-party library behaviour,
modelled from its documentation): a fetch is issued iff the request key is
non-null. -/
def swrIssuesFetch (key : Option String) : Bool :=
  key.isSome

/-- `useMovie`: singular hook, passes the cached `data` through untouched
(so it stays `undefined` until the first successful fetch). -/
def useMovie (c : SWRCache Movie) : HookResult (Option Movie) :=
  { data := c.data, error := c.error, isLoading := c.isLoading }

/-- `useBillboard` (`/api/random`): singular hook, `data` passed through. -/
def useBillboard (c : SWRCache Movie) : HookResult (Option Movie) :=
  { data := c.data, error := c.error, isLoading := c.isLoading }

/-- `useCurrentUser` (`/api/current`): singular hook, `data` passed
through. -/
def useCurrentUser (c : SWRCache User) : HookResult (Option User) :=
  { data := c.data, error := c.error, isLoading := c.isLoading }

/-- `useFavorites` (`/api/favorites`): list hook, `data: data || []`. -/
def useFavorites (c : SWRCache (List Movie)) : HookResult (List Movie) :=
  { data := c.data.getD [], error := c.error, isLoading := c.isLoading }

/-- `useMovieList` (`/api/movies`): list hook, `data: data || []`. -/
def useMovieList (c : SWRCache (List Movie)) : HookResult (List Movie) :=
  { data := c.data.getD [], error := c.error, isLoading := c.isLoading }

/-- JSON values, for stating what `res.json(...)` serializes. -/
inductive Json where
  | null : Json
  | str : String → Json
  | num : Int → Json
  | arr : List Json → Json
deriving Repr

/-- JSON encoding of an optional string field (Prisma stores `null`). -/
def optStrJson : Option String → Json
  | none => .null
  | some s => .str s

/-- JSON encoding of an optional numeric timestamp field. -/
def optNatJson : Option Nat → Json
  | none => .null
  | some n => .num n

/-- The field list of `JSON.stringify` applied to a full User record: every
stored field appears, none is stripped before serialization. -/
def userToJson (u : User) : List (String × Json) :=
  [("id", .str u.id),
   ("email", .str u.email),
   ("name", .str u.name),
   ("image", .str u.image),
   ("hashedPassword", optStrJson u.hashedPassword),
   ("emailVerified", optNatJson u.emailVerified),
   ("createdAt", .num u.createdAt),
   ("updatedAt", .num u.updatedAt),
   ("favoriteIds", .arr (u.favoriteIds.map .str))]

/-- Extract the serialized User from a response body, when there is one. -/
def respUser : Response → Option User
  | { status := _, body := some (.user u) } => some u
  | _ => none

/-- `v` and `v'` agree on every stored field other than `favoriteIds`. -/
def onlyFavoritesChanged (v v' : User) : Prop :=
  v'.id = v.id ∧ v'.email = v.email ∧ v'.name = v.name ∧ v'.image = v.image ∧
  v'.hashedPassword = v.hashedPassword ∧ v'.emailVerified = v.emailVerified ∧
  v'.createdAt = v.createdAt ∧ v'.updatedAt = v.updatedAt

/-- Concrete fixture: a movie. -/
def movieA : Movie :=
  { id := "m1", title := "Alpha", description := "d1", videoUrl := "v1",
    thumbnailUrl := "t1", genre := "g1", duration := "1h" }

/-- Concrete fixture: a second movie. -/
def movieB : Movie :=
  { id := "m2", title := "Beta", description := "d2", videoUrl := "v2",
    thumbnailUrl := "t2", genre := "g2", duration := "2h" }

/-- Concrete fixture: a registered user with no favorites. -/
def alice : User :=
  { id := "u1", email := "a@x", name := "Alice", image := "",
    hashedPassword := some "h1", emailVerified := some 5, createdAt := 1,
    updatedAt := 2, favoriteIds := [] }

/-- Concrete fixture: a database with one user and two movies. -/
def sampleDB : DB :=
  { users := [alice], movies := [movieA, movieB] }

/-- Concrete fixture: a session whose email claim matches `alice`. -/
def sampleSession : Option Session :=
  some { user := some { email := some "a@x" } }

/-- Concrete fixture: a database whose catalog has exactly one movie. -/
def singletonDB : DB :=
  { users := [alice], movies := [movieA] }

/-- Concrete fixture: a database with an empty catalog. -/
def emptyCatalogDB : DB :=
  { users := [alice], movies := [] }

/-- Concrete fixture: a model bcrypt with cost-factor prefix, for
instantiating registration theorems. -/
def sampleHash (password : String) (cost : Nat) : String :=
  "$2b$" ++ toString cost ++ "$" ++ password ++ "!"

/-- Inversion for a successful session validation: the request carried a
session with a non-empty email claim and the lookup found the user. -/
theorem serverAuth_ok_iff (sess : Option Session) (db : DB) (u : User) :
    serverAuth sess db = .ok u ↔
      ∃ e, sess = some { user := some { email := some e } } ∧ e ≠ "" ∧
        userFindUnique db e = some u := by
  constructor
  · intro h
    match sess with
    | none => simp [serverAuth] at h
    | some ⟨none⟩ => simp [serverAuth] at h
    | some ⟨some ⟨none⟩⟩ => simp [serverAuth] at h
    | some ⟨some ⟨some e⟩⟩ =>
        by_cases he : e = ""
        · simp [serverAuth, he] at h
        · refine ⟨e, rfl, he, ?_⟩
          cases hf : userFindUnique db e with
          | none => simp [serverAuth, he, hf] at h
          | some v => simpa [serverAuth, he, hf] using h
  · rintro ⟨e, rfl, he, hfind⟩
    simp [serverAuth, he, hfind]

/-- A successful `findUnique` by email returns a record bearing that
email. -/
theorem userFindUnique_some_email {db : DB} {e : String} {u : User}
    (h : userFindUnique db e = some u) : u.email = e := by
  have h' : db.users.find? (fun v => v.email == e) = some u := h
  have h2 := List.find?_some h'
  exact beq_iff_eq.1 h2

/-- Looking a user up after an email-keyed in-place rewrite of the users
collection is the rewrite of the original lookup, provided the rewrite
preserves emails. -/
theorem userFindUnique_map_update (db : DB) (e key : String) (g : User → User)
    (hg : ∀ v, (g v).email = v.email) :
    userFindUnique
        { db with users := db.users.map (fun v => if v.email == key then g v else v) } e
      = (userFindUnique db e).map (fun v => if v.email == key then g v else v) := by
  show (db.users.map _).find? _ = _
  rw [List.find?_map]
  have hpred : ((fun u : User => u.email == e) ∘
        fun v : User => if v.email == key then g v else v)
      = (fun v : User => v.email == e) := by
    funext v
    by_cases hv : (v.email == key) = true
    · simp [Function.comp, hv, hg]
    · simp [Function.comp, hv]
  rw [hpred]
  rfl

/-- Session validation still succeeds after an email-preserving rewrite of
the current user's record, and returns the rewritten record. -/
theorem serverAuth_after_update (sess : Option Session) (db : DB) (cu : User)
    (g : User → User) (hg : ∀ v, (g v).email = v.email)
    (h : serverAuth sess db = .ok cu) :
    serverAuth sess
        { db with users := db.users.map (fun v => if v.email == cu.email then g v else v) }
      = .ok (g cu) := by
  obtain ⟨e, hsess, he, hfind⟩ := (serverAuth_ok_iff sess db cu).1 h
  have hemail : cu.email = e := userFindUnique_some_email hfind
  subst hsess
  refine (serverAuth_ok_iff _ _ _).2 ⟨e, rfl, he, ?_⟩
  rw [hemail, userFindUnique_map_update db e e g hg, hfind, Option.map_some']
  simp [hemail]

/-- Session validation after a `dbMapFavorites` rewrite keyed on the
current user's email returns the rewritten record. -/
theorem serverAuth_dbMap (sess : Option Session) (db : DB) (cu : User)
    (h : List String → List String) (hauth : serverAuth sess db = .ok cu) :
    serverAuth sess (dbMapFavorites db cu.email h)
      = .ok { cu with favoriteIds := h cu.favoriteIds } := by
  unfold dbMapFavorites
  exact serverAuth_after_update sess db cu
    (fun v => { v with favoriteIds := h v.favoriteIds }) (fun _ => rfl) hauth

/-- User lookup after a `dbMapFavorites` rewrite. -/
theorem userFindUnique_dbMap (db : DB) (e key : String)
    (h : List String → List String) :
    userFindUnique (dbMapFavorites db key h) e
      = (userFindUnique db e).map
          (fun v => if v.email == key then { v with favoriteIds := h v.favoriteIds } else v) := by
  unfold dbMapFavorites
  exact userFindUnique_map_update db e key
    (fun v => { v with favoriteIds := h v.favoriteIds }) (fun _ => rfl)

/-- `dbMapFavorites` does not touch the movies collection. -/
theorem dbMapFavorites_movies (db : DB) (key : String)
    (h : List String → List String) : (dbMapFavorites db key h).movies = db.movies :=
  rfl

/-- Characterization of a successful favorite-add core run: the movie id is
appended to the current user's `favoriteIds` and only that record is
rewritten. -/
theorem favoriteAddCore_eq (sess : Option Session) (db : DB) (cu : User)
    (x : String) (m : Movie)
    (hauth : serverAuth sess db = .ok cu) (hm : movieFindUnique db x = some m) :
    favoriteAddCore sess x db =
      .ok ({ cu with favoriteIds := cu.favoriteIds ++ [x] },
           dbMapFavorites db cu.email (fun l => l ++ [x])) := by
  obtain ⟨e, hsess, he, hfind⟩ := (serverAuth_ok_iff sess db cu).1 hauth
  have hemail : cu.email = e := userFindUnique_some_email hfind
  have hfind' : db.users.find? (fun u => u.email == cu.email) = some cu := by
    rw [hemail]; exact hfind
  simp [favoriteAddCore, hauth, hm, userUpdatePushFavorite, updateUserByEmail, hfind',
    dbMapFavorites]

/-- Characterization of a successful favorite-remove core run: every
occurrence of the movie id is removed from the current user's
`favoriteIds` and only that record is rewritten. -/
theorem favoriteRemoveCore_eq (sess : Option Session) (db : DB) (cu : User)
    (x : String) (m : Movie)
    (hauth : serverAuth sess db = .ok cu) (hm : movieFindUnique db x = some m) :
    favoriteRemoveCore sess x db =
      .ok ({ cu with favoriteIds := without cu.favoriteIds x },
           dbMapFavorites db cu.email (fun _ => without cu.favoriteIds x)) := by
  obtain ⟨e, hsess, he, hfind⟩ := (serverAuth_ok_iff sess db cu).1 hauth
  have hemail : cu.email = e := userFindUnique_some_email hfind
  have hfind' : db.users.find? (fun u => u.email == cu.email) = some cu := by
    rw [hemail]; exact hfind
  simp [favoriteRemoveCore, hauth, hm, userUpdateSetFavorites, updateUserByEmail, hfind',
    dbMapFavorites]

/-- `POST /api/favorite` on an existing movie: the 200 response carries the
updated user and the state change is the single email-keyed rewrite. -/
theorem favoriteHandler_post_eq (sess : Option Session) (db : DB) (cu : User)
    (x : String) (m : Movie)
    (hauth : serverAuth sess db = .ok cu) (hm : movieFindUnique db x = some m) :
    favoriteHandler .POST sess x db =
      ({ status := 200,
         body := some (.user { cu with favoriteIds := cu.favoriteIds ++ [x] }) },
       dbMapFavorites db cu.email (fun l => l ++ [x])) := by
  simp [favoriteHandler, favoriteAddCore_eq sess db cu x m hauth hm]

/-- `DELETE /api/favorite` on an existing movie: the 200 response carries
the updated user and the state change is the single email-keyed rewrite. -/
theorem favoriteHandler_delete_eq (sess : Option Session) (db : DB) (cu : User)
    (x : String) (m : Movie)
    (hauth : serverAuth sess db = .ok cu) (hm : movieFindUnique db x = some m) :
    favoriteHandler .DELETE sess x db =
      ({ status := 200,
         body := some (.user { cu with favoriteIds := without cu.favoriteIds x }) },
       dbMapFavorites db cu.email (fun _ => without cu.favoriteIds x)) := by
  simp [favoriteHandler, favoriteRemoveCore_eq sess db cu x m hauth hm]

/-- `onlyFavoritesChanged` is reflexive. -/
theorem onlyFavoritesChanged_refl (v : User) : onlyFavoritesChanged v v :=
  ⟨rfl, rfl, rfl, rfl, rfl, rfl, rfl, rfl⟩

/-- Zipping a list with its image under a map pairs every element with its
image. -/
theorem zip_map_self (l : List User) (f : User → User) :
    l.zip (l.map f) = l.map (fun v => (v, f v)) := by
  induction l with
  | nil => rfl
  | cons v t ih => simp [ih]

/-- Frame property of the email-keyed rewrite: pairing the users collection
with its rewritten image, every pair agrees outside `favoriteIds`,
non-matching records are untouched, and at most as many records change as
match the email key. -/
theorem map_update_frame (l : List User) (key : String) (g : User → User)
    (hg : ∀ v, onlyFavoritesChanged v (g v)) :
    (∀ p ∈ l.zip (l.map (fun v => if v.email == key then g v else v)),
        onlyFavoritesChanged p.1 p.2 ∧ (p.1.email ≠ key → p.2 = p.1)) ∧
      (l.zip (l.map (fun v => if v.email == key then g v else v))).countP
          (fun p => decide (p.2 ≠ p.1)) ≤ l.countP (fun v => v.email == key) := by
  rw [zip_map_self]
  constructor
  · intro p hp
    obtain ⟨v, hv, rfl⟩ := List.mem_map.1 hp
    by_cases hvk : (v.email == key) = true
    · constructor
      · simpa [hvk] using hg v
      · intro hne
        exact absurd (beq_iff_eq.1 hvk) hne
    · exact ⟨by simpa [hvk] using onlyFavoritesChanged_refl v, fun _ => by simp [hvk]⟩
  · rw [List.countP_map]
    apply List.countP_mono_left
    intro v _ hv
    by_cases hvk : (v.email == key) = true
    · exact hvk
    · exfalso
      simp [Function.comp, hvk] at hv

/-- The random offset is a sound index: for a draw `q ∈ [0, 1)` and a
non-empty catalog, `Math.floor(q * count)` lies in `[0, count)`. -/
theorem randomIndex_lt (q : ℚ) (c : ℕ) (_h0 : 0 ≤ q) (h1 : q < 1) (hc : 0 < c) :
    randomIndex q c < c := by
  show (⌊q * (c:ℚ)⌋).toNat < c
  have hlt : ⌊q * (c:ℚ)⌋ < (c:ℤ) := by
    rw [Int.floor_lt]
    calc q * (c:ℚ) < 1 * (c:ℚ) := by
          apply mul_lt_mul_of_pos_right h1
          exact_mod_cast hc
      _ = (c:ℚ) := one_mul _
  omega

/-- On a one-movie catalog the random offset is always 0. -/
theorem randomIndex_one (q : ℚ) (h0 : 0 ≤ q) (h1 : q < 1) :
    randomIndex q 1 = 0 := by
  show (⌊q * ((1:ℕ):ℚ)⌋).toNat = 0
  rw [Nat.cast_one, mul_one, Int.floor_eq_zero_iff.2 ⟨h0, h1⟩]
  rfl

/-- Claim C1: for every request whose session carries an email claim
matching an existing User, the session validator returns exactly that
user's record and `GET /current` responds 200 with it; when the session is
absent, the email claim is missing (or empty, which the truthiness test
treats the same), or the account no longer exists, validation fails, every
failure path produces the one `Not signed in` error, and the caller
surfaces it as a 400 response. -/
theorem current_get_returns_session_user (db : DB) (e : String) (u : User) :
    (e ≠ "" → userFindUnique db e = some u →
      serverAuth (some { user := some { email := some e } }) db = .ok u ∧
      currentHandler .GET (some { user := some { email := some e } }) db
        = { status := 200, body := some (.user u) }) ∧
    serverAuth none db = .error "Not signed in" ∧
    serverAuth (some { user := none }) db = .error "Not signed in" ∧
    serverAuth (some { user := some { email := none } }) db = .error "Not signed in" ∧
    (userFindUnique db e = none →
      serverAuth (some { user := some { email := some e } }) db
        = .error "Not signed in") ∧
    (∀ sess msg, serverAuth sess db = .error msg → msg = "Not signed in") ∧
    (∀ sess msg, serverAuth sess db = .error msg →
      currentHandler .GET sess db = { status := 400, body := none }) := by
  refine ⟨?_, rfl, rfl, rfl, ?_, ?_, ?_⟩
  · intro he hf
    constructor
    · simp [serverAuth, he, hf]
    · simp [currentHandler, serverAuth, he, hf]
  · intro hf
    by_cases he : e = ""
    · simp [serverAuth, he]
    · simp [serverAuth, he, hf]
  · intro sess msg h
    match sess with
    | none =>
        simp [serverAuth] at h
        exact h.symm
    | some ⟨none⟩ =>
        simp [serverAuth] at h
        exact h.symm
    | some ⟨some ⟨none⟩⟩ =>
        simp [serverAuth] at h
        exact h.symm
    | some ⟨some ⟨some e2⟩⟩ =>
        by_cases h2 : e2 = ""
        · simp [serverAuth, h2] at h
          exact h.symm
        · cases hf : userFindUnique db e2 with
          | none =>
              simp [serverAuth, h2, hf] at h
              exact h.symm
          | some v => simp [serverAuth, h2, hf] at h
  · intro sess msg h
    simp [currentHandler, h]

/-- Witness for C1 at a concrete database, session and user. -/
theorem current_get_returns_session_user_witness :
    serverAuth (some { user := some { email := some "a@x" } }) sampleDB = .ok alice ∧
    currentHandler .GET (some { user := some { email := some "a@x" } }) sampleDB
      = { status := 200, body := some (.user alice) } :=
  (current_get_returns_session_user sampleDB "a@x" alice).1 (by decide) rfl

/-- Removing a value with `without` leaves no occurrence of it. -/
theorem count_without (l : List String) (v : String) : (without l v).count v = 0 := by
  rw [List.count_eq_zero]
  intro hmem
  have h := List.mem_filter.1 hmem
  simp at h

/-- Claim C2: favorite-add appends the movie id to the current user's
`favoriteIds` without deduplication and favorite-remove deletes every
occurrence: starting from a user who does not yet hold the id, two add
calls leave two entries in the stored sequence and one remove call deletes
both. -/
theorem favorite_add_twice_remove_once (sess : Option Session) (db : DB)
    (cu : User) (x : String) (mx : Movie)
    (hauth : serverAuth sess db = .ok cu)
    (hmov : movieFindUnique db x = some mx)
    (hfresh : cu.favoriteIds.count x = 0) :
    (favoriteHandler .POST sess x db).1
        = { status := 200,
            body := some (.user { cu with favoriteIds := cu.favoriteIds ++ [x] }) } ∧
    (favoriteHandler .POST sess x (favoriteHandler .POST sess x db).2).1
        = { status := 200,
            body := some (.user { cu with favoriteIds := cu.favoriteIds ++ [x, x] }) } ∧
    (cu.favoriteIds ++ [x, x]).count x = 2 ∧
    userFindUnique (favoriteHandler .POST sess x (favoriteHandler .POST sess x db).2).2
        cu.email = some { cu with favoriteIds := cu.favoriteIds ++ [x, x] } ∧
    (favoriteHandler .DELETE sess x
        (favoriteHandler .POST sess x (favoriteHandler .POST sess x db).2).2).1
      = { status := 200,
          body := some (.user
            { cu with favoriteIds := without (cu.favoriteIds ++ [x, x]) x }) } ∧
    (without (cu.favoriteIds ++ [x, x]) x).count x = 0 ∧
    userFindUnique (favoriteHandler .DELETE sess x
        (favoriteHandler .POST sess x (favoriteHandler .POST sess x db).2).2).2
      cu.email = some { cu with favoriteIds := without (cu.favoriteIds ++ [x, x]) x } := by
  obtain ⟨e, hsess, he, hfind⟩ := (serverAuth_ok_iff sess db cu).1 hauth
  have hemail : cu.email = e := userFindUnique_some_email hfind
  have hfind' : userFindUnique db cu.email = some cu := by rw [hemail]; exact hfind
  have h1 := favoriteHandler_post_eq sess db cu x mx hauth hmov
  have hauth1 : serverAuth sess (dbMapFavorites db cu.email (fun l => l ++ [x]))
      = .ok { cu with favoriteIds := cu.favoriteIds ++ [x] } :=
    serverAuth_dbMap sess db cu (fun l => l ++ [x]) hauth
  have h2 : favoriteHandler .POST sess x (dbMapFavorites db cu.email (fun l => l ++ [x]))
      = ({ status := 200,
           body := some (.user
             { cu with favoriteIds := (cu.favoriteIds ++ [x]) ++ [x] }) },
         dbMapFavorites (dbMapFavorites db cu.email (fun l => l ++ [x]))
           cu.email (fun l => l ++ [x])) := by
    exact favoriteHandler_post_eq sess (dbMapFavorites db cu.email (fun l => l ++ [x]))
      { cu with favoriteIds := cu.favoriteIds ++ [x] } x mx hauth1 hmov
  have hdb1 : (favoriteHandler .POST sess x db).2
      = dbMapFavorites db cu.email (fun l => l ++ [x]) := by rw [h1]
  have hauth2 : serverAuth sess
      (dbMapFavorites (dbMapFavorites db cu.email (fun l => l ++ [x]))
        cu.email (fun l => l ++ [x]))
      = .ok { cu with favoriteIds := (cu.favoriteIds ++ [x]) ++ [x] } := by
    exact serverAuth_dbMap sess (dbMapFavorites db cu.email (fun l => l ++ [x]))
      { cu with favoriteIds := cu.favoriteIds ++ [x] } (fun l => l ++ [x]) hauth1
  have h3 : favoriteHandler .DELETE sess x
      (dbMapFavorites (dbMapFavorites db cu.email (fun l => l ++ [x]))
        cu.email (fun l => l ++ [x]))
      = ({ status := 200,
           body := some (.user { cu with favoriteIds := without ((cu.favoriteIds ++ [x]) ++ [x]) x }) },
         dbMapFavorites
           (dbMapFavorites (dbMapFavorites db cu.email (fun l => l ++ [x]))
             cu.email (fun l => l ++ [x]))
           cu.email (fun _ => without ((cu.favoriteIds ++ [x]) ++ [x]) x)) := by
    exact favoriteHandler_delete_eq sess
      (dbMapFavorites (dbMapFavorites db cu.email (fun l => l ++ [x]))
        cu.email (fun l => l ++ [x]))
      { cu with favoriteIds := (cu.favoriteIds ++ [x]) ++ [x] } x mx hauth2 hmov
  refine ⟨by rw [h1], ?_, ?_, ?_, ?_, ?_, ?_⟩
  · rw [hdb1, h2]
    simp
  · simp [List.count_append, hfresh]
  · rw [hdb1, show (favoriteHandler .POST sess x
        (dbMapFavorites db cu.email (fun l => l ++ [x]))).2 = _ from congrArg Prod.snd h2,
      userFindUnique_dbMap, userFindUnique_dbMap, hfind']
    simp
  · rw [hdb1, show (favoriteHandler .POST sess x
        (dbMapFavorites db cu.email (fun l => l ++ [x]))).2 = _ from congrArg Prod.snd h2,
      h3]
    simp [without]
  · simp [count_without]
  · rw [hdb1, show (favoriteHandler .POST sess x
        (dbMapFavorites db cu.email (fun l => l ++ [x]))).2 = _ from congrArg Prod.snd h2,
      show (favoriteHandler .DELETE sess x
        (dbMapFavorites (dbMapFavorites db cu.email (fun l => l ++ [x]))
          cu.email (fun l => l ++ [x]))).2 = _ from congrArg Prod.snd h3,
      userFindUnique_dbMap, userFindUnique_dbMap, userFindUnique_dbMap, hfind']
    simp [without]

/-- Witness for C2 at a concrete database, session and movie. -/
theorem favorite_add_twice_remove_once_witness :
    (favoriteHandler .POST sampleSession "m1" sampleDB).1
        = { status := 200,
            body := some (.user { alice with favoriteIds := alice.favoriteIds ++ ["m1"] }) } ∧
    (alice.favoriteIds ++ ["m1", "m1"]).count "m1" = 2 ∧
    (without (alice.favoriteIds ++ ["m1", "m1"]) "m1").count "m1" = 0 := by
  obtain ⟨h1, h2, h3, h4, h5, h6, h7⟩ :=
    favorite_add_twice_remove_once sampleSession sampleDB alice "m1" movieA rfl rfl rfl
  exact ⟨h1, h3, h6⟩

/-- Claim C5: for both `POST` and `DELETE /favorite`, a `movieId` that
identifies no Movie makes the request fail with the `Invalid ID` error
(the NotFound kind), surfaced as HTTP 400, and the stored state — the
current user's `favoriteIds` included — is unchanged: the existence check
runs before any update. -/
theorem favorite_missing_movie_rejected (sess : Option Session) (db : DB)
    (cu : User) (x : String)
    (hauth : serverAuth sess db = .ok cu)
    (hmiss : movieFindUnique db x = none) :
    favoriteAddCore sess x db = .error "Invalid ID" ∧
    favoriteRemoveCore sess x db = .error "Invalid ID" ∧
    favoriteHandler .POST sess x db = ({ status := 400, body := none }, db) ∧
    favoriteHandler .DELETE sess x db = ({ status := 400, body := none }, db) := by
  have hadd : favoriteAddCore sess x db = .error "Invalid ID" := by
    simp [favoriteAddCore, hauth, hmiss]
  have hrem : favoriteRemoveCore sess x db = .error "Invalid ID" := by
    simp [favoriteRemoveCore, hauth, hmiss]
  exact ⟨hadd, hrem, by simp [favoriteHandler, hadd], by simp [favoriteHandler, hrem]⟩

/-- Witness for C5 at a concrete database and a missing movie id. -/
theorem favorite_missing_movie_rejected_witness :
    favoriteAddCore sampleSession "zz" sampleDB = .error "Invalid ID" ∧
    favoriteRemoveCore sampleSession "zz" sampleDB = .error "Invalid ID" ∧
    favoriteHandler .POST sampleSession "zz" sampleDB
      = ({ status := 400, body := none }, sampleDB) ∧
    favoriteHandler .DELETE sampleSession "zz" sampleDB
      = ({ status := 400, body := none }, sampleDB) :=
  favorite_missing_movie_rejected sampleSession sampleDB alice "zz" rfl rfl

/-- Claim C7: for `GET /movies/{id}`, a non-existent identifier fails with
the very same `Invalid ID` error as a malformed identifier (non-string or
empty), both surfaced as HTTP 400, while a valid existing identifier
returns that movie with status 200. -/
theorem movie_by_id_error_collapse (sess : Option Session) (db : DB) (u : User)
    (mid mid2 : String) (m : Movie)
    (hauth : serverAuth sess db = .ok u) :
    movieByIdCore sess none db = .error "Invalid ID" ∧
    movieByIdCore sess (some "") db = .error "Invalid ID" ∧
    (movieFindUnique db mid = none →
      movieByIdCore sess (some mid) db = .error "Invalid ID") ∧
    movieByIdHandler .GET sess none db = { status := 400, body := none } ∧
    movieByIdHandler .GET sess (some "") db = { status := 400, body := none } ∧
    (movieFindUnique db mid = none →
      movieByIdHandler .GET sess (some mid) db = { status := 400, body := none }) ∧
    (mid2 ≠ "" → movieFindUnique db mid2 = some m →
      movieByIdCore sess (some mid2) db = .ok m ∧
      movieByIdHandler .GET sess (some mid2) db
        = { status := 200, body := some (.movie m) }) := by
  have hnone : movieByIdCore sess none db = .error "Invalid ID" := by
    simp [movieByIdCore, hauth]
  have hempty : movieByIdCore sess (some "") db = .error "Invalid ID" := by
    simp [movieByIdCore, hauth]
  have hmissing : movieFindUnique db mid = none →
      movieByIdCore sess (some mid) db = .error "Invalid ID" := by
    intro hmiss
    by_cases h0 : mid = ""
    · simp [movieByIdCore, hauth, h0]
    · simp [movieByIdCore, hauth, h0, hmiss]
  refine ⟨hnone, hempty, hmissing, ?_, ?_, ?_, ?_⟩
  · simp [movieByIdHandler, hnone]
  · simp [movieByIdHandler, hempty]
  · intro hmiss
    simp [movieByIdHandler, hmissing hmiss]
  · intro h0 hhit
    have hok : movieByIdCore sess (some mid2) db = .ok m := by
      simp [movieByIdCore, hauth, h0, hhit]
    exact ⟨hok, by simp [movieByIdHandler, hok]⟩

/-- Witness for C7 at a concrete database: a missing id and the empty id
produce the identical error, an existing id produces the movie. -/
theorem movie_by_id_error_collapse_witness :
    movieByIdCore sampleSession none sampleDB = .error "Invalid ID" ∧
    movieByIdCore sampleSession (some "") sampleDB = .error "Invalid ID" ∧
    movieByIdCore sampleSession (some "zz") sampleDB = .error "Invalid ID" ∧
    movieByIdHandler .GET sampleSession (some "zz") sampleDB
      = { status := 400, body := none } ∧
    movieByIdHandler .GET sampleSession (some "m1") sampleDB
      = { status := 200, body := some (.movie movieA) } := by
  obtain ⟨a, b, c, d, e2, f, g⟩ :=
    movie_by_id_error_collapse sampleSession sampleDB alice "zz" "m1" movieA rfl
  exact ⟨a, b, c rfl, f rfl, (g (by decide) rfl).2⟩

/-- Claim C3: `GET /random` counts the catalog, draws the floor of a
uniform draw scaled by the count — an integer in `[0, count)` whenever the
catalog is non-empty — and fetches exactly one record at that offset; a
one-movie catalog always yields that movie and an empty catalog yields the
undefined body with status 200 rather than a thrown error. -/
theorem random_movie_endpoint (sess : Option Session) (db : DB) (u : User)
    (q : ℚ) (m : Movie)
    (hauth : serverAuth sess db = .ok u)
    (hq0 : 0 ≤ q) (hq1 : q < 1) :
    (0 < movieCount db →
      randomIndex q (movieCount db) < movieCount db ∧
      (movieFindManySkipTake1 db (randomIndex q (movieCount db))).length = 1) ∧
    (db.movies = [m] →
      randomHandler .GET sess q db = { status := 200, body := some (.movie m) }) ∧
    (db.movies = [] →
      randomHandler .GET sess q db = { status := 200, body := some .undef }) := by
  refine ⟨?_, ?_, ?_⟩
  · intro hc
    have hidx := randomIndex_lt q (movieCount db) hq0 hq1 hc
    refine ⟨hidx, ?_⟩
    have hidx' : randomIndex q (movieCount db) < db.movies.length := hidx
    simp only [movieFindManySkipTake1, List.length_take, List.length_drop]
    omega
  · intro hm
    have hc : movieCount db = 1 := by simp [movieCount, hm]
    have hz : randomIndex q (movieCount db) = 0 := by
      rw [hc]
      exact randomIndex_one q hq0 hq1
    simp [randomHandler, hauth, movieFindManySkipTake1, hz, hm]
  · intro hm
    simp [randomHandler, hauth, movieFindManySkipTake1, hm]

/-- Witness for C3: a one-movie catalog and an empty catalog at the draw
`q = 0`. -/
theorem random_movie_endpoint_witness :
    randomHandler .GET sampleSession 0 singletonDB
      = { status := 200, body := some (.movie movieA) } ∧
    randomHandler .GET sampleSession 0 emptyCatalogDB
      = { status := 200, body := some .undef } := by
  constructor
  · exact (random_movie_endpoint sampleSession singletonDB alice 0 movieA rfl
      (by decide) (by decide)).2.1 rfl
  · exact (random_movie_endpoint sampleSession emptyCatalogDB alice 0 movieA rfl
      (by decide) (by decide)).2.2 rfl

/-- Claim C4: `POST /register` effectively requires email, display name
and password (a missing field aborts with a 400 and no record); an
already-taken email yields exactly HTTP 422 with `Email taken` and no new
record; a fresh email creates exactly one User storing the cost-12 hash
(never the plaintext, assuming the hash moves the password), an empty
image and an immediate email-verified timestamp, returned with 200. -/
theorem register_endpoint_behavior (db : DB) (email nm pw : String)
    (hash : String → Nat → String) (newId : String) (now : Nat) :
    ((userFindUnique db email).isSome = true →
      registerHandler .POST { email := some email, name := some nm, password := some pw }
          hash newId now db
        = ({ status := 422, body := some (.err "Email taken") }, db)) ∧
    (userFindUnique db email = none →
      registerHandler .POST { email := some email, name := some nm, password := some pw }
          hash newId now db
        = ({ status := 200,
             body := some (.user { id := newId, email := email, name := nm, image := "", hashedPassword := some (hash pw 12), emailVerified := some now, createdAt := now, updatedAt := now, favoriteIds := [] }) },
           { db with users := db.users ++ [{ id := newId, email := email, name := nm, image := "", hashedPassword := some (hash pw 12), emailVerified := some now, createdAt := now, updatedAt := now, favoriteIds := [] }] })) ∧
    (hash pw 12 ≠ pw →
      ({ id := newId, email := email, name := nm, image := "", hashedPassword := some (hash pw 12), emailVerified := some now, createdAt := now, updatedAt := now, favoriteIds := [] } : User).hashedPassword
        ≠ some pw) ∧
    (registerHandler .POST { email := none, name := some nm, password := some pw }
        hash newId now db
      = ({ status := 400, body := some (.err "Something went wrong") }, db)) ∧
    (userFindUnique db email = none →
      registerHandler .POST { email := some email, name := some nm, password := none }
          hash newId now db
        = ({ status := 400, body := some (.err "Something went wrong") }, db)) ∧
    (userFindUnique db email = none →
      registerHandler .POST { email := some email, name := none, password := some pw }
          hash newId now db
        = ({ status := 400, body := some (.err "Something went wrong") }, db)) := by
  refine ⟨?_, ?_, ?_, ?_, ?_, ?_⟩
  · intro h
    obtain ⟨u0, hu⟩ := Option.isSome_iff_exists.1 h
    simp [registerHandler, hu]
  · intro h
    simp [registerHandler, h]
  · intro hne hcontra
    exact hne (Option.some.inj hcontra)
  · simp [registerHandler]
  · intro h
    simp [registerHandler, h]
  · intro h
    simp [registerHandler, h]

/-- Witness for C4: a taken email, a fresh email and the created record's
non-plaintext password at concrete inputs. -/
theorem register_endpoint_behavior_witness :
    registerHandler .POST { email := some "a@x", name := some "Al", password := some "pw" }
        sampleHash "u9" 7 sampleDB
      = ({ status := 422, body := some (.err "Email taken") }, sampleDB) ∧
    registerHandler .POST { email := some "b@y", name := some "Bo", password := some "pw" }
        sampleHash "u9" 7 sampleDB
      = ({ status := 200,
           body := some (.user { id := "u9", email := "b@y", name := "Bo", image := "", hashedPassword := some (sampleHash "pw" 12), emailVerified := some 7, createdAt := 7, updatedAt := 7, favoriteIds := [] }) },
         { sampleDB with users := sampleDB.users ++ [{ id := "u9", email := "b@y", name := "Bo", image := "", hashedPassword := some (sampleHash "pw" 12), emailVerified := some 7, createdAt := 7, updatedAt := 7, favoriteIds := [] }] }) ∧
    ({ id := "u9", email := "b@y", name := "Bo", image := "", hashedPassword := some (sampleHash "pw" 12), emailVerified := some 7, createdAt := 7, updatedAt := 7, favoriteIds := [] } : User).hashedPassword
      ≠ some "pw" := by
  obtain ⟨c1, _, _, _, _, _⟩ :=
    register_endpoint_behavior sampleDB "a@x" "Al" "pw" sampleHash "u9" 7
  obtain ⟨_, d2, d3, _, _, _⟩ :=
    register_endpoint_behavior sampleDB "b@y" "Bo" "pw" sampleHash "u9" 7
  exact ⟨c1 rfl, d2 rfl, d3 (by decide)⟩

/-- Claim C6: the favorites listing returns exactly the Movie records whose
id is a member of the current user's `favoriteIds`; hence after a
successful favorite-add of movie X the listing includes a movie with id X,
and after a subsequent successful favorite-remove it excludes every such
movie. -/
theorem favorites_round_trip (sess : Option Session) (db : DB) (cu : User)
    (x : String) (mx : Movie)
    (hauth : serverAuth sess db = .ok cu)
    (hmx : movieFindUnique db x = some mx) :
    favoritesHandler .GET sess db
        = { status := 200,
            body := some (.movies (db.movies.filter (fun m => cu.favoriteIds.contains m.id))) } ∧
    favoritesHandler .GET sess (favoriteHandler .POST sess x db).2
        = { status := 200,
            body := some (.movies (db.movies.filter (fun m => (cu.favoriteIds ++ [x]).contains m.id))) } ∧
    mx ∈ db.movies.filter (fun m => (cu.favoriteIds ++ [x]).contains m.id) ∧
    favoritesHandler .GET sess
        (favoriteHandler .DELETE sess x (favoriteHandler .POST sess x db).2).2
      = { status := 200,
          body := some (.movies (db.movies.filter
            (fun m => (without (cu.favoriteIds ++ [x]) x).contains m.id))) } ∧
    (∀ m ∈ db.movies.filter (fun m => (without (cu.favoriteIds ++ [x]) x).contains m.id),
      m.id ≠ x) := by
  have h1 := favoriteHandler_post_eq sess db cu x mx hauth hmx
  have hdb1 : (favoriteHandler .POST sess x db).2
      = dbMapFavorites db cu.email (fun l => l ++ [x]) := by rw [h1]
  have hauth1 : serverAuth sess (dbMapFavorites db cu.email (fun l => l ++ [x]))
      = .ok { cu with favoriteIds := cu.favoriteIds ++ [x] } :=
    serverAuth_dbMap sess db cu (fun l => l ++ [x]) hauth
  have h3 : favoriteHandler .DELETE sess x (dbMapFavorites db cu.email (fun l => l ++ [x]))
      = ({ status := 200,
           body := some (.user { cu with favoriteIds := without (cu.favoriteIds ++ [x]) x }) },
         dbMapFavorites (dbMapFavorites db cu.email (fun l => l ++ [x])) cu.email
           (fun _ => without (cu.favoriteIds ++ [x]) x)) := by
    exact favoriteHandler_delete_eq sess (dbMapFavorites db cu.email (fun l => l ++ [x]))
      { cu with favoriteIds := cu.favoriteIds ++ [x] } x mx hauth1 (by exact hmx)
  have hauth2 : serverAuth sess
      (dbMapFavorites (dbMapFavorites db cu.email (fun l => l ++ [x])) cu.email
        (fun _ => without (cu.favoriteIds ++ [x]) x))
      = .ok { cu with favoriteIds := without (cu.favoriteIds ++ [x]) x } := by
    exact serverAuth_dbMap sess (dbMapFavorites db cu.email (fun l => l ++ [x]))
      { cu with favoriteIds := cu.favoriteIds ++ [x] }
      (fun _ => without (cu.favoriteIds ++ [x]) x) hauth1
  refine ⟨?_, ?_, ?_, ?_, ?_⟩
  · simp [favoritesHandler, hauth, movieFindManyIdIn]
  · rw [hdb1]
    simp [favoritesHandler, hauth1, movieFindManyIdIn, dbMapFavorites_movies]
  · have hmx' : db.movies.find? (fun mm => mm.id == x) = some mx := hmx
    have hmem : mx ∈ db.movies := List.mem_of_find?_eq_some hmx'
    have hmid0 := List.find?_some hmx'
    have hmid : mx.id = x := beq_iff_eq.1 hmid0
    refine List.mem_filter.2 ⟨hmem, ?_⟩
    rw [hmid]
    exact List.elem_iff.2 (by simp)
  · rw [hdb1, show (favoriteHandler .DELETE sess x
        (dbMapFavorites db cu.email (fun l => l ++ [x]))).2 = _ from congrArg Prod.snd h3]
    simp [favoritesHandler, hauth2, movieFindManyIdIn, dbMapFavorites_movies]
  · intro m hm
    have h2 := (List.mem_filter.1 hm).2
    have h4 : m.id ∈ without (cu.favoriteIds ++ [x]) x := List.elem_iff.1 h2
    have h5 := (List.mem_filter.1 (show m.id ∈ List.filter (fun y => y != x)
        (cu.favoriteIds ++ [x]) from h4)).2
    simpa using h5

/-- Witness for C6: the round trip evaluated on a concrete database. -/
theorem favorites_round_trip_witness :
    favoritesHandler .GET sampleSession (favoriteHandler .POST sampleSession "m1" sampleDB).2
      = { status := 200, body := some (.movies [movieA]) } ∧
    favoritesHandler .GET sampleSession
        (favoriteHandler .DELETE sampleSession "m1"
          (favoriteHandler .POST sampleSession "m1" sampleDB).2).2
      = { status := 200, body := some (.movies []) } := by
  obtain ⟨c1, c2, c3, c4, c5⟩ :=
    favorites_round_trip sampleSession sampleDB alice "m1" movieA rfl rfl
  constructor
  · rw [c2]; rfl
  · rw [c4]; rfl

/-- Claim C8: a successful favorite add or remove performs exactly one
update against the single current-User record (at most one stored record
changes, given the store's email-uniqueness invariant), touching only its
`favoriteIds` field; every other field of every user and all Movie records
are unchanged. -/
theorem favorite_mutation_single_record (sess : Option Session) (db : DB)
    (cu : User) (x : String) (mx : Movie) (method : Method)
    (hauth : serverAuth sess db = .ok cu)
    (hmx : movieFindUnique db x = some mx)
    (hmethod : method = .POST ∨ method = .DELETE)
    (huniq : db.users.countP (fun v => v.email == cu.email) ≤ 1) :
    (favoriteHandler method sess x db).1.status = 200 ∧
    (favoriteHandler method sess x db).2.movies = db.movies ∧
    (favoriteHandler method sess x db).2.users.length = db.users.length ∧
    (∀ p ∈ db.users.zip (favoriteHandler method sess x db).2.users,
        onlyFavoritesChanged p.1 p.2 ∧ (p.1.email ≠ cu.email → p.2 = p.1)) ∧
    (db.users.zip (favoriteHandler method sess x db).2.users).countP
        (fun p => decide (p.2 ≠ p.1)) ≤ 1 := by
  rcases hmethod with rfl | rfl
  · have h1 := favoriteHandler_post_eq sess db cu x mx hauth hmx
    have hdb : (favoriteHandler .POST sess x db).2
        = dbMapFavorites db cu.email (fun l => l ++ [x]) := by rw [h1]
    have hframe := map_update_frame db.users cu.email
      (fun v => { v with favoriteIds := v.favoriteIds ++ [x] })
      (fun v => ⟨rfl, rfl, rfl, rfl, rfl, rfl, rfl, rfl⟩)
    refine ⟨by rw [h1], by rw [hdb]; rfl, by rw [hdb]; simp [dbMapFavorites], ?_, ?_⟩
    · rw [hdb]
      intro p hp
      exact hframe.1 p (by simpa [dbMapFavorites] using hp)
    · rw [hdb]
      have h2 : (db.users.zip (dbMapFavorites db cu.email (fun l => l ++ [x])).users).countP
          (fun p => decide (p.2 ≠ p.1)) ≤ db.users.countP (fun v => v.email == cu.email) := by
        simpa [dbMapFavorites] using hframe.2
      exact le_trans h2 huniq
  · have h1 := favoriteHandler_delete_eq sess db cu x mx hauth hmx
    have hdb : (favoriteHandler .DELETE sess x db).2
        = dbMapFavorites db cu.email (fun _ => without cu.favoriteIds x) := by rw [h1]
    have hframe := map_update_frame db.users cu.email
      (fun v => { v with favoriteIds := without cu.favoriteIds x })
      (fun v => ⟨rfl, rfl, rfl, rfl, rfl, rfl, rfl, rfl⟩)
    refine ⟨by rw [h1], by rw [hdb]; rfl, by rw [hdb]; simp [dbMapFavorites], ?_, ?_⟩
    · rw [hdb]
      intro p hp
      exact hframe.1 p (by simpa [dbMapFavorites] using hp)
    · rw [hdb]
      have h2 : (db.users.zip
          (dbMapFavorites db cu.email (fun _ => without cu.favoriteIds x)).users).countP
          (fun p => decide (p.2 ≠ p.1)) ≤ db.users.countP (fun v => v.email == cu.email) := by
        simpa [dbMapFavorites] using hframe.2
      exact le_trans h2 huniq

/-- Witness for C8: a concrete favorite-add changes at most one record and
leaves the catalog and the user-count unchanged. -/
theorem favorite_mutation_single_record_witness :
    (favoriteHandler .POST sampleSession "m1" sampleDB).1.status = 200 ∧
    (favoriteHandler .POST sampleSession "m1" sampleDB).2.movies = sampleDB.movies ∧
    (favoriteHandler .POST sampleSession "m1" sampleDB).2.users.length
      = sampleDB.users.length ∧
    (sampleDB.users.zip (favoriteHandler .POST sampleSession "m1" sampleDB).2.users).countP
        (fun p => decide (p.2 ≠ p.1)) ≤ 1 := by
  obtain ⟨a, b, c, _, e2⟩ := favorite_mutation_single_record sampleSession sampleDB alice
    "m1" movieA .POST rfl rfl (Or.inl rfl) (by decide)
  exact ⟨a, b, c, e2⟩

/-- Claim C9: the single-movie hook issues no HTTP request when its id
parameter is absent or falsy (its SWR key is null), and before the first
successful fetch the list hooks expose `[]` while the singular hooks
expose `undefined`. -/
theorem client_hook_defaults (id : Option String) (cm cb : SWRCache Movie)
    (cl cf : SWRCache (List Movie)) (cc : SWRCache User) :
    (id = none ∨ id = some "" → swrIssuesFetch (useMovieRequestKey id) = false) ∧
    (cf.data = none → (useFavorites cf).data = []) ∧
    (cl.data = none → (useMovieList cl).data = []) ∧
    (cm.data = none → (useMovie cm).data = none) ∧
    (cb.data = none → (useBillboard cb).data = none) ∧
    (cc.data = none → (useCurrentUser cc).data = none) := by
  refine ⟨?_, ?_, ?_, ?_, ?_, ?_⟩
  · rintro (rfl | rfl) <;> simp [useMovieRequestKey, swrIssuesFetch]
  · intro h
    simp [useFavorites, h]
  · intro h
    simp [useMovieList, h]
  · intro h
    simp [useMovie, h]
  · intro h
    simp [useBillboard, h]
  · intro h
    simp [useCurrentUser, h]

/-- Witness for C9 at the empty cache state and an absent id. -/
theorem client_hook_defaults_witness :
    swrIssuesFetch (useMovieRequestKey none) = false ∧
    swrIssuesFetch (useMovieRequestKey (some "")) = false ∧
    (useFavorites { data := none, error := none, isLoading := true }).data = [] ∧
    (useMovieList { data := none, error := none, isLoading := true }).data = [] ∧
    (useMovie { data := none, error := none, isLoading := true }).data = none := by
  obtain ⟨a, b, c, d, _, _⟩ := client_hook_defaults none
    { data := none, error := none, isLoading := true }
    { data := none, error := none, isLoading := true }
    { data := none, error := none, isLoading := true }
    { data := none, error := none, isLoading := true }
    { data := none, error := none, isLoading := true }
  obtain ⟨a2, _, _, _, _, _⟩ := client_hook_defaults (some "")
    { data := none, error := none, isLoading := true }
    { data := none, error := none, isLoading := true }
    { data := none, error := none, isLoading := true }
    { data := none, error := none, isLoading := true }
    { data := none, error := none, isLoading := true }
  exact ⟨a (Or.inl rfl), a2 (Or.inr rfl), b rfl, c rfl, d rfl⟩

/-- Claim C10: every success response that serializes a User — register,
current, and the favorite mutations — carries the full stored record, so
whenever the stored `hashedPassword` is present its value appears among
the serialized JSON fields; nothing is stripped before serialization. -/
theorem success_responses_include_hashedPassword (sess : Option Session) (db : DB)
    (cu : User) (hh x : String) (mx : Movie) (email nm pw newId : String)
    (hash : String → Nat → String) (now : Nat) :
    (∀ (u : User) (h0 : String), u.hashedPassword = some h0 →
      ("hashedPassword", Json.str h0) ∈ userToJson u) ∧
    (serverAuth sess db = .ok cu → cu.hashedPassword = some hh →
      currentHandler .GET sess db = { status := 200, body := some (.user cu) } ∧
      ("hashedPassword", Json.str hh) ∈ userToJson cu) ∧
    (serverAuth sess db = .ok cu → cu.hashedPassword = some hh →
      movieFindUnique db x = some mx →
      respUser (favoriteHandler .POST sess x db).1
          = some { cu with favoriteIds := cu.favoriteIds ++ [x] } ∧
      ("hashedPassword", Json.str hh)
        ∈ userToJson { cu with favoriteIds := cu.favoriteIds ++ [x] } ∧
      respUser (favoriteHandler .DELETE sess x db).1
          = some { cu with favoriteIds := without cu.favoriteIds x } ∧
      ("hashedPassword", Json.str hh)
        ∈ userToJson { cu with favoriteIds := without cu.favoriteIds x }) ∧
    (userFindUnique db email = none →
      respUser (registerHandler .POST
          { email := some email, name := some nm, password := some pw }
          hash newId now db).1
        = some { id := newId, email := email, name := nm, image := "", hashedPassword := some (hash pw 12), emailVerified := some now, createdAt := now, updatedAt := now, favoriteIds := [] } ∧
      ("hashedPassword", Json.str (hash pw 12))
        ∈ userToJson { id := newId, email := email, name := nm, image := "", hashedPassword := some (hash pw 12), emailVerified := some now, createdAt := now, updatedAt := now, favoriteIds := [] }) := by
  have hser : ∀ (u : User) (h0 : String), u.hashedPassword = some h0 →
      ("hashedPassword", Json.str h0) ∈ userToJson u := by
    intro u h0 hu
    simp [userToJson, hu, optStrJson]
  refine ⟨hser, ?_, ?_, ?_⟩
  · intro hauth hpw
    exact ⟨by simp [currentHandler, hauth], hser cu hh hpw⟩
  · intro hauth hpw hmx
    have hpost := favoriteHandler_post_eq sess db cu x mx hauth hmx
    have hdel := favoriteHandler_delete_eq sess db cu x mx hauth hmx
    refine ⟨by rw [hpost]; rfl, hser _ hh hpw, by rw [hdel]; rfl, hser _ hh hpw⟩
  · intro hfresh
    constructor
    · simp [registerHandler, hfresh, respUser]
    · exact hser _ _ rfl

/-- Witness for C10: the current-user response and the register response at
concrete inputs both serialize the hashed password field. -/
theorem success_responses_include_hashedPassword_witness :
    currentHandler .GET sampleSession sampleDB
      = { status := 200, body := some (.user alice) } ∧
    ("hashedPassword", Json.str "h1") ∈ userToJson alice ∧
    ("hashedPassword", Json.str (sampleHash "pw" 12))
      ∈ userToJson { id := "u9", email := "b@y", name := "Bo", image := "", hashedPassword := some (sampleHash "pw" 12), emailVerified := some 7, createdAt := 7, updatedAt := 7, favoriteIds := [] } := by
  obtain ⟨s1, s2, _, s4⟩ := success_responses_include_hashedPassword sampleSession sampleDB
    alice "h1" "m1" movieA "b@y" "Bo" "pw" "u9" sampleHash 7
  obtain ⟨w1, w2⟩ := s2 rfl rfl
  exact ⟨w1, w2, (s4 rfl).2⟩
